import Mathlib

/-
Verification of the JobAppTracker document-customization front end against
its specification.  The definitions below are shallow embeddings of the
JavaScript source files (the api service module, the AISettings page, the
ResumeBuilder page and the CoverLetterGenerator page) together with the
model lists of llm_config.yaml.  Backend components absent from the source
tree (prompt builder, document synthesizer, settings store merge) are
modelled from the specification text and marked as such in their doc
comments.
-/

namespace JobAppTracker

/-- A JSON-like value, modelling the plain data objects exchanged by the
JavaScript code (axios response bodies, component state updates). -/
inductive Js where
  | jnull : Js
  | jbool : Bool → Js
  | jstr : String → Js
  | jnum : Int → Js
  | jobj : List (String × Js) → Js

/-- Field lookup in an association list of JSON object fields. -/
def lookupField : List (String × Js) → String → Option Js
  | [], _ => none
  | (k, v) :: rest, key => if k == key then some v else lookupField rest key

/-- Field access on a JSON value: defined on objects, none elsewhere. -/
def Js.getField : Js → String → Option Js
  | Js.jobj fields, key => lookupField fields key
  | _, _ => none

/-- Read a boolean field of a JSON object. -/
def Js.getBool (j : Js) (key : String) : Option Bool :=
  match j.getField key with
  | some (Js.jbool b) => some b
  | _ => none

/-- Read a string field of a JSON object. -/
def Js.getStr (j : Js) (key : String) : Option String :=
  match j.getField key with
  | some (Js.jstr s) => some s
  | _ => none

/-- Whether a JSON value is an object carrying the given field. -/
def Js.hasField (j : Js) (key : String) : Bool :=
  (j.getField key).isSome

/-- Whether a JSON value carries a boolean field named available, the shape
the spec requires of an availability-probe result. -/
def hasAvailableBool (j : Js) : Bool :=
  (j.getBool "available").isSome

/-- The outcome of one network round trip made by the axios client: either
the response data or a thrown error with its message. -/
inductive NetOutcome where
  | success : Js → NetOutcome
  | failure : String → NetOutcome

/-- The bare axios call: resolves to the response data or throws, i.e.
yields an error in the Except monad. -/
def apiCall : NetOutcome → Except String Js
  | NetOutcome.success d => Except.ok d
  | NetOutcome.failure msg => Except.error msg

/-- Embedding of checkApiHealth from the api service module: on failure the
catch block logs and rethrows, so the error propagates to the caller. -/
def checkApiHealth (net : NetOutcome) : Except String Js :=
  match apiCall net with
  | Except.ok d => Except.ok d
  | Except.error msg => Except.error msg

/-- Embedding of checkOllamaStatus from the api service module: on failure
the catch block swallows the error and returns the object with a status
field set to unavailable. -/
def checkOllamaStatus (net : NetOutcome) : Except String Js :=
  match apiCall net with
  | Except.ok d => Except.ok d
  | Except.error _ => Except.ok (Js.jobj [("status", Js.jstr "unavailable")])

/-- Embedding of checkLLMAvailability from the api service module: on
failure the catch block swallows the error and returns an object with the
provider, available set to false, and the error message. -/
def checkLLMAvailability (provider : String) (net : NetOutcome) : Except String Js :=
  match apiCall net with
  | Except.ok d => Except.ok d
  | Except.error msg =>
      Except.ok (Js.jobj
        [("provider", Js.jstr provider),
         ("available", Js.jbool false),
         ("error", Js.jstr msg)])

/-- JavaScript truthiness of an optional string value: undefined and the
empty string are falsy. -/
def optStrTruthy : Option String → Bool
  | none => false
  | some s => s != ""

/-- The JavaScript or-with-default idiom on a possibly absent JSON field
holding a string: a present non-empty string wins, anything else (absent,
non-string, empty) yields the default. -/
def jsStrOr (v : Option Js) (d : String) : String :=
  match v with
  | some (Js.jstr s) => if s == "" then d else s
  | _ => d

/-- Component state of the AISettings page, one field per useState hook
relevant to providers, models and credentials. -/
structure AISettingsState where
  provider : String
  openaiApiKey : String
  anthropicApiKey : String
  openaiModel : String
  anthropicModel : String
  ollamaModel : String
  openaiKeyFromEnv : Bool
  anthropicKeyFromEnv : Bool
deriving DecidableEq

/-- Initial AISettings component state, from the useState initializers. -/
def initialAISettingsState : AISettingsState :=
  { provider := "ollama"
    openaiApiKey := ""
    anthropicApiKey := ""
    openaiModel := "gpt-3.5-turbo"
    anthropicModel := "claude-3-haiku-20240307"
    ollamaModel := "qwen2.5:14b"
    openaiKeyFromEnv := false
    anthropicKeyFromEnv := false }

/-- The OpenAI model options offered by the AISettings dropdown. -/
def openaiModels : List String :=
  ["gpt-4o-mini", "gpt-4o"]

/-- The Anthropic model options offered by the AISettings dropdown. -/
def anthropicModels : List String :=
  ["claude-3-5-haiku-latest", "claude-3-5-sonnet-latest", "claude-3-7-sonnet-latest"]

/-- The Ollama model options offered by the AISettings dropdown. -/
def ollamaModels : List String :=
  ["qwen2.5:14b", "llama3:70b", "llama3:8b", "mistral:7b", "mixtral:8x7b", "neural-chat"]

/-- The available model options for ollama in llm_config.yaml. -/
def yamlAvailableModelsOllama : List String :=
  ["qwen2.5:14b", "llama3:70b", "llama3:8b", "mistral:7b", "mixtral:8x7b", "neural-chat"]

/-- The available model options for openai in llm_config.yaml. -/
def yamlAvailableModelsOpenai : List String :=
  ["gpt-4o-mini", "gpt-4o"]

/-- The available model options for anthropic in llm_config.yaml. -/
def yamlAvailableModelsAnthropic : List String :=
  ["claude-3-5-haiku-latest", "claude-3-5-sonnet-latest", "claude-3-7-sonnet-latest"]

/-- The per-provider default models in llm_config.yaml. -/
def yamlModelOllama : String := "qwen2.5:14b"

/-- The default openai model in llm_config.yaml. -/
def yamlModelOpenai : String := "gpt-4o"

/-- The default anthropic model in llm_config.yaml. -/
def yamlModelAnthropic : String := "claude-3-5-sonnet-latest"

/-- Embedding of the onSuccess handler of the llmSettings query in the
AISettings page: it copies provider and per-provider models out of the
response with hard-coded fallbacks, and when the response reports that an
API key exists it copies the value field of that key into the form state. -/
def onSettingsLoaded (s : AISettingsState) (data : Js) : AISettingsState :=
  let models := data.getField "models"
  let apiKeys := data.getField "api_keys"
  let openaiInfo := apiKeys.bind (fun a => Js.getField a "openai")
  let anthropicInfo := apiKeys.bind (fun a => Js.getField a "anthropic")
  let openaiExists := (openaiInfo.bind (fun k => Js.getBool k "exists")).getD false
  let anthropicExists := (anthropicInfo.bind (fun k => Js.getBool k "exists")).getD false
  { s with
    provider := (data.getStr "provider").getD ""
    openaiModel := jsStrOr (models.bind (fun m => Js.getField m "openai")) "gpt-3.5-turbo"
    anthropicModel := jsStrOr (models.bind (fun m => Js.getField m "anthropic")) "claude-3-haiku-20240307"
    ollamaModel := jsStrOr (models.bind (fun m => Js.getField m "ollama")) "qwen2.5:14b"
    openaiApiKey :=
      if openaiExists then (openaiInfo.bind (fun k => Js.getStr k "value")).getD ""
      else s.openaiApiKey
    openaiKeyFromEnv := openaiExists
    anthropicApiKey :=
      if anthropicExists then (anthropicInfo.bind (fun k => Js.getStr k "value")).getD ""
      else s.anthropicApiKey
    anthropicKeyFromEnv := anthropicExists }

/-- The partial settings update posted by the AISettings save handler: an
absent field is one the caller did not supply. -/
structure SettingsUpdate where
  provider : Option String
  openai_api_key : Option String
  anthropic_api_key : Option String
  openai_model : Option String
  anthropic_model : Option String
  ollama_model : Option String
deriving DecidableEq

/-- Embedding of handleSubmit in the AISettings page: the update always
carries the provider and the three model selections, and carries an API key
only when the corresponding form field is non-empty. -/
def buildSettingsUpdate (s : AISettingsState) : SettingsUpdate :=
  { provider := some s.provider
    openai_api_key := if s.openaiApiKey != "" then some s.openaiApiKey else none
    anthropic_api_key := if s.anthropicApiKey != "" then some s.anthropicApiKey else none
    openai_model := some s.openaiModel
    anthropic_model := some s.anthropicModel
    ollama_model := some s.ollamaModel }

/-- The settings held by the backend store. -/
structure StoredSettings where
  provider : String
  openaiApiKey : String
  anthropicApiKey : String
  openaiModel : String
  anthropicModel : String
  ollamaModel : String
deriving DecidableEq

/-- Modelled from the spec: the settings store update operation (the
backend application code is absent from the source tree) replaces only the
fields supplied in the partial update and keeps every omitted field at its
previously stored value. -/
def applySettingsUpdate (stored : StoredSettings) (u : SettingsUpdate) : StoredSettings :=
  { provider := u.provider.getD stored.provider
    openaiApiKey := u.openai_api_key.getD stored.openaiApiKey
    anthropicApiKey := u.anthropic_api_key.getD stored.anthropicApiKey
    openaiModel := u.openai_model.getD stored.openaiModel
    anthropicModel := u.anthropic_model.getD stored.anthropicModel
    ollamaModel := u.ollama_model.getD stored.ollamaModel }

/-- The last slash-separated component of a path, as computed by the
JavaScript idiom of splitting on the slash and popping the last element. -/
def lastPathComponent (p : String) : String :=
  ((p.splitOn "/").getLast?).getD ""

/-- The request payload handed to the generation api helpers by the two
generation pages: the JSON fields of requestData plus the optional uploaded
file (identified here by its name). -/
structure GenPayload where
  job_description : String
  company_name : String
  position : String
  job_id : Option Int
  resume_path : Option String
  file : Option String
deriving DecidableEq

/-- Outcome of a form submission: either a rejection shown as an error
notification with no request issued, or a request sent to the generation
pipeline. -/
inductive SubmitOutcome where
  | rejected : String → SubmitOutcome
  | request : GenPayload → SubmitOutcome
deriving DecidableEq

/-- Component state of the ResumeBuilder page: the form fields, the resume
source fields, and the resume path of the fetched application data. -/
structure ResumeBuilderState where
  jobDescription : String
  companyName : String
  position : String
  resumeFile : Option String
  resumeFileName : String
  selectedResumePath : String
  applicationResumePath : Option String
  jobId : Option Int
deriving DecidableEq

/-- Initial ResumeBuilder component state, from the useState initializers,
before the application query resolves. -/
def initialResumeBuilderState : ResumeBuilderState :=
  { jobDescription := ""
    companyName := ""
    position := ""
    resumeFile := none
    resumeFileName := ""
    selectedResumePath := ""
    applicationResumePath := none
    jobId := none }

/-- The application record fields consumed by the onSuccess handler of the
application query on the generation pages. -/
structure ApplicationData where
  job_description : Option String
  company_name : Option String
  position : Option String
  resume_path : Option String
deriving DecidableEq

/-- The or-empty-string idiom used when copying application fields into the
form: a falsy value (absent or empty) becomes the empty string. -/
def jsStrOrEmpty (v : Option String) : String :=
  if optStrTruthy v then v.getD "" else ""

/-- Events that mutate the resume-source part of the ResumeBuilder state:
choosing a file in the upload input, changing the resume dropdown (the
empty value is the None menu item), and the application query resolving. -/
inductive ResumeBuilderEvent where
  | fileSelected : String → ResumeBuilderEvent
  | dropdownChanged : String → ResumeBuilderEvent
  | applicationLoaded : ApplicationData → ResumeBuilderEvent

/-- Embedding of the ResumeBuilder state handlers: handleResumeChange sets
the uploaded file and clears the dropdown selection; handleResumeSelection
sets the selection and clears the uploaded file when the chosen value is
non-empty, and clears the selection and the displayed name otherwise; the
application-query onSuccess handler copies the job fields and, when the
application has a resume path, sets the displayed name and the dropdown
selection without touching the uploaded file. -/
def resumeBuilderStep (s : ResumeBuilderState) : ResumeBuilderEvent → ResumeBuilderState
  | ResumeBuilderEvent.fileSelected f =>
      { s with resumeFile := some f, resumeFileName := f, selectedResumePath := "" }
  | ResumeBuilderEvent.dropdownChanged v =>
      if v != "" then
        { s with selectedResumePath := v, resumeFileName := lastPathComponent v, resumeFile := none }
      else
        { s with selectedResumePath := "", resumeFileName := "" }
  | ResumeBuilderEvent.applicationLoaded d =>
      let s1 := { s with
        jobDescription := jsStrOrEmpty d.job_description
        companyName := jsStrOrEmpty d.company_name
        position := jsStrOrEmpty d.position
        applicationResumePath := d.resume_path }
      if optStrTruthy d.resume_path then
        { s1 with
          resumeFileName := lastPathComponent (d.resume_path.getD "")
          selectedResumePath := d.resume_path.getD "" }
      else s1

/-- Embedding of handleSubmit in the ResumeBuilder page: an empty job
description is rejected before anything else; otherwise the request is sent
with the uploaded file if one is set, else with the dropdown selection if
one is set, else with the application resume path if the application has
one, and with no source at all the submission is rejected. -/
def resumeBuilderSubmit (s : ResumeBuilderState) : SubmitOutcome :=
  if s.jobDescription == "" then
    SubmitOutcome.rejected "Please provide a job description"
  else
    let base : GenPayload :=
      { job_description := s.jobDescription
        company_name := s.companyName
        position := s.position
        job_id := s.jobId
        resume_path := none
        file := none }
    if s.resumeFile.isSome then
      SubmitOutcome.request { base with file := s.resumeFile }
    else if s.selectedResumePath != "" then
      SubmitOutcome.request { base with resume_path := some s.selectedResumePath }
    else if optStrTruthy s.applicationResumePath then
      SubmitOutcome.request { base with resume_path := s.applicationResumePath }
    else
      SubmitOutcome.rejected "Please upload or select a resume"

/-- Component state of the CoverLetterGenerator page. -/
structure CoverLetterState where
  jobDescription : String
  companyName : String
  position : String
  resumeFile : Option String
  resumeFileName : String
  applicationResumePath : Option String
  jobId : Option Int
deriving DecidableEq

/-- Embedding of validateForm in the CoverLetterGenerator page: job
description, company name and position are each required to be non-empty,
checked in that order; the result is the error message of the first failing
check, or none when the form is valid. -/
def coverLetterValidateForm (s : CoverLetterState) : Option String :=
  if s.jobDescription == "" then some "Please provide a job description"
  else if s.companyName == "" then some "Please provide a company name"
  else if s.position == "" then some "Please provide a position title"
  else none

/-- Embedding of handleSubmit in the CoverLetterGenerator page: a failed
validation is rejected with its message and no request; otherwise the
request is sent with the uploaded file if one is set, else (when the
application has a resume path or a resume file name is displayed) with the
application resume path when that is truthy, and with no source at all the
submission is rejected. -/
def coverLetterSubmit (s : CoverLetterState) : SubmitOutcome :=
  match coverLetterValidateForm s with
  | some msg => SubmitOutcome.rejected msg
  | none =>
    let base : GenPayload :=
      { job_description := s.jobDescription
        company_name := s.companyName
        position := s.position
        job_id := s.jobId
        resume_path := none
        file := none }
    if s.resumeFile.isSome then
      SubmitOutcome.request { base with file := s.resumeFile }
    else if optStrTruthy s.applicationResumePath || s.resumeFileName != "" then
      SubmitOutcome.request
        { base with
          resume_path := if optStrTruthy s.applicationResumePath then s.applicationResumePath else none }
    else
      SubmitOutcome.rejected "Please upload a resume"

/-- The characters left unchanged by the JavaScript encodeURIComponent
function: ASCII letters, ASCII digits, and hyphen, period, underscore,
tilde, exclamation mark, asterisk, apostrophe, opening parenthesis and
closing parenthesis (written here by character code). -/
def isUnreservedChar (c : Char) : Bool :=
  c.isAlpha || c.isDigit ||
  c == Char.ofNat 45 || c == Char.ofNat 46 || c == Char.ofNat 95 ||
  c == Char.ofNat 126 || c == Char.ofNat 33 || c == Char.ofNat 42 ||
  c == Char.ofNat 39 || c == Char.ofNat 40 || c == Char.ofNat 41

/-- Uppercase hexadecimal digit for a value below sixteen. -/
def hexDigit (n : Nat) : Char :=
  if n < 10 then Char.ofNat (48 + n) else Char.ofNat (55 + n)

/-- Percent-escape of one byte: a percent sign followed by two uppercase
hexadecimal digits. -/
def byteHex (b : Nat) : String :=
  String.mk [Char.ofNat 37, hexDigit (b / 16), hexDigit (b % 16)]

/-- The UTF-8 byte sequence of a Unicode code point. -/
def utf8Bytes (n : Nat) : List Nat :=
  if n < 128 then [n]
  else if n < 2048 then [192 + n / 64, 128 + n % 64]
  else if n < 65536 then [224 + n / 4096, 128 + (n / 64) % 64, 128 + n % 64]
  else [240 + n / 262144, 128 + (n / 4096) % 64, 128 + (n / 64) % 64, 128 + n % 64]

/-- Encoding of a single character as encodeURIComponent does: an
unreserved character stands for itself, every other character becomes the
percent-escapes of its UTF-8 bytes. -/
def encodeChar (c : Char) : String :=
  if isUnreservedChar c then String.singleton c
  else String.join ((utf8Bytes c.toNat).map byteHex)

/-- Character-list worker for encodeURIComponent. -/
def encodeURIComponentList : List Char → String
  | [] => ""
  | c :: cs => encodeChar c ++ encodeURIComponentList cs

/-- Model of the JavaScript encodeURIComponent function on strings. -/
def encodeURIComponent (s : String) : String :=
  encodeURIComponentList s.data

/-- The base URL of the axios api client. -/
def apiBaseURL : String := "http://localhost:8000/api"

/-- Embedding of getDocumentUrl in the current revision of the api service
module: the filename is passed through encodeURIComponent. -/
def getDocumentUrlCurrent (docType filename : String) : String :=
  apiBaseURL ++ "/" ++ docType ++ "/" ++ encodeURIComponent filename

/-- Embedding of getDocumentUrl in the earlier revision of the api service
module: the filename is interpolated into the URL unencoded. -/
def getDocumentUrlEarlier (docType filename : String) : String :=
  apiBaseURL ++ "/" ++ docType ++ "/" ++ filename

/-- Modelled from the spec: the text extractor of the backend (absent from
the source tree) yields one string per non-empty paragraph of the source
document, in document order. The document is modelled as its list of
paragraph texts. -/
def extract (docParagraphs : List String) : List String :=
  docParagraphs.filter (fun p => p != "")

/-- The delimiter heading the synthesizer places before the generated
suggestions in a customized resume document. -/
def suggestionsDelimiter : String := "--- AI Suggestions ---"

/-- The note the synthesizer inserts when the provider produced nothing. -/
def noSuggestionsNote : String := "No suggestions available"

/-- Modelled from the spec: the resume path of the document synthesizer
(the backend document handler code is absent from the source tree) keeps
every original paragraph, appends a delimited suggestions section, and when
the provider call failed (none) or returned an empty result it appends an
explicit no-suggestions note in place of the suggestions. -/
def synthesizeResume (originalParagraphs : List String) (providerResult : Option String) :
    List String :=
  let body :=
    match providerResult with
    | none => [noSuggestionsNote]
    | some text => if text == "" then [noSuggestionsNote] else [text]
  originalParagraphs ++ [suggestionsDelimiter] ++ body

/-- The two generation tasks of the pipeline. -/
inductive Task where
  | resumeCustomization : Task
  | coverLetter : Task

/-- A generation request as the spec defines it: the task payload fields
the prompt builder may draw on. -/
structure GenerationRequest where
  jobDescription : String
  companyName : String
  position : String
  sourceText : String
  applicantName : String
  applicantContact : String

/-- Modelled from the spec: the prompt builder of the backend (absent from
the source tree) renders, for resume customization, an instruction to
identify gaps and propose concrete edits as readable prose together with
the extracted resume text and the job description, and, for cover letters,
an instruction to produce a ready-to-send letter body together with the
company, position, job description and applicant fields. It reads nothing
but its two arguments. -/
def build : Task → GenerationRequest → String
  | Task.resumeCustomization, r =>
      "Identify gaps between the resume and the job description and propose " ++
      "concrete edits (keyword alignment, emphasis reordering) as readable prose. " ++
      "Resume text: " ++ r.sourceText ++ " Job description: " ++ r.jobDescription
  | Task.coverLetter, r =>
      "Write a complete, ready-to-send cover letter body in prose paragraphs. " ++
      "Company: " ++ r.companyName ++ " Position: " ++ r.position ++
      " Job description: " ++ r.jobDescription ++
      " Applicant: " ++ r.applicantName ++ " Contact: " ++ r.applicantContact

/-- A settings read response of the shape the AISettings page consumes,
with API keys present: the key objects carry the plaintext value field the
page copies into its form state. -/
def leakedSettingsResponse : Js :=
  Js.jobj
    [("provider", Js.jstr "openai"),
     ("models", Js.jobj
        [("openai", Js.jstr "gpt-4o"),
         ("anthropic", Js.jstr "claude-3-5-sonnet-latest"),
         ("ollama", Js.jstr "qwen2.5:14b")]),
     ("api_keys", Js.jobj
        [("openai", Js.jobj
            [("exists", Js.jbool true), ("value", Js.jstr "sk-test-plaintext-openai")]),
         ("anthropic", Js.jobj
            [("exists", Js.jbool true), ("value", Js.jstr "sk-ant-plaintext-anthropic")])])]

/-- Unreserved character lists encode to themselves. -/
theorem encodeURIComponentList_unreserved (cs : List Char)
    (h : ∀ c ∈ cs, isUnreservedChar c = true) :
    encodeURIComponentList cs = String.mk cs := by
  induction cs with
  | nil => rfl
  | cons c rest ih =>
      have hc : isUnreservedChar c = true := h c (List.mem_cons_self c rest)
      have ih2 := ih (fun x hx => h x (List.mem_cons_of_mem c hx))
      simp only [encodeURIComponentList, encodeChar, hc, if_pos, ih2]
      rfl

/-- C1 (counterexample): the claim, read over both cited availability
operations, fails on checkOllamaStatus: on a network failure it returns the
object with only a status field, which carries neither an available boolean
nor a reason. -/
theorem c1_ollama_status_shape_counterexample :
    checkOllamaStatus (NetOutcome.failure "Network Error") =
      Except.ok (Js.jobj [("status", Js.jstr "unavailable")]) ∧
    Js.hasField (Js.jobj [("status", Js.jstr "unavailable")]) "available" = false ∧
    Js.hasField (Js.jobj [("status", Js.jstr "unavailable")]) "error" = false := by
  exact ⟨rfl, rfl, rfl⟩

/-- C1 (amended): neither availability operation ever propagates an error:
both always return a structured result. checkLLMAvailability forwards a
success payload (so a spec-shaped payload with an available boolean is
returned as such) and on any failure returns the object with the provider,
available set to false and the error message as the reason;
checkOllamaStatus on failure returns the object with a status field set to
unavailable, which carries no available boolean. -/
theorem c1_availability_never_raises (provider : String) (net : NetOutcome) :
    (∃ r, checkLLMAvailability provider net = Except.ok r) ∧
    (∀ d, net = NetOutcome.success d → hasAvailableBool d = true →
      ∃ r, checkLLMAvailability provider net = Except.ok r ∧ hasAvailableBool r = true) ∧
    (∀ msg, net = NetOutcome.failure msg →
      checkLLMAvailability provider net =
        Except.ok (Js.jobj
          [("provider", Js.jstr provider),
           ("available", Js.jbool false),
           ("error", Js.jstr msg)])) ∧
    (∃ r, checkOllamaStatus net = Except.ok r) ∧
    (∀ msg, net = NetOutcome.failure msg →
      checkOllamaStatus net = Except.ok (Js.jobj [("status", Js.jstr "unavailable")])) := by
  cases net with
  | success d =>
      refine ⟨⟨d, rfl⟩, ?_, ?_, ⟨d, rfl⟩, ?_⟩
      · intro d2 hd hav
        injection hd with h1
        subst h1
        exact ⟨_, rfl, hav⟩
      · intro msg h
        exact NetOutcome.noConfusion h
      · intro msg h
        exact NetOutcome.noConfusion h
  | failure m =>
      refine ⟨⟨_, rfl⟩, ?_, ?_, ⟨_, rfl⟩, ?_⟩
      · intro d hd _
        exact NetOutcome.noConfusion hd
      · intro msg h
        injection h with h1
        subst h1
        rfl
      · intro msg h
        rfl

/-- C1 (witness): the amended theorem evaluated for the openai provider on
a concrete network failure. -/
theorem c1_availability_witness :
    (∃ r, checkLLMAvailability "openai" (NetOutcome.failure "Network Error") = Except.ok r) ∧
    checkLLMAvailability "openai" (NetOutcome.failure "Network Error") =
      Except.ok (Js.jobj
        [("provider", Js.jstr "openai"),
         ("available", Js.jbool false),
         ("error", Js.jstr "Network Error")]) ∧
    checkOllamaStatus (NetOutcome.failure "Network Error") =
      Except.ok (Js.jobj [("status", Js.jstr "unavailable")]) := by
  have h := c1_availability_never_raises "openai" (NetOutcome.failure "Network Error")
  exact ⟨h.1, h.2.2.1 "Network Error" rfl, h.2.2.2.2 "Network Error" rfl⟩

/-- C2 (code bug): on a settings read response with stored keys, the
settings page receives and stores the plaintext credential values: the read
contract discloses the unredacted API keys to the reader, contradicting the
claimed presence-flag-only contract. -/
theorem c2_settings_read_discloses_plaintext :
    (onSettingsLoaded initialAISettingsState leakedSettingsResponse).openaiApiKey =
      "sk-test-plaintext-openai" ∧
    (onSettingsLoaded initialAISettingsState leakedSettingsResponse).anthropicApiKey =
      "sk-ant-plaintext-anthropic" := by
  exact ⟨rfl, rfl⟩

/-- C3: on both generation pages, a submission whose job description is
empty is rejected with a validation message and no request reaches the
provider pipeline. -/
theorem c3_empty_job_description_rejected :
    (∀ s : ResumeBuilderState, s.jobDescription = "" →
      resumeBuilderSubmit s = SubmitOutcome.rejected "Please provide a job description") ∧
    (∀ s : CoverLetterState, s.jobDescription = "" →
      coverLetterSubmit s = SubmitOutcome.rejected "Please provide a job description") := by
  constructor
  · intro s h
    simp [resumeBuilderSubmit, h]
  · intro s h
    simp [coverLetterSubmit, coverLetterValidateForm, h]

/-- C3 (witness): concrete submissions with an empty job description on
each page, both rejected. -/
theorem c3_empty_job_description_witness :
    resumeBuilderSubmit { initialResumeBuilderState with resumeFile := some "resume.docx" } =
      SubmitOutcome.rejected "Please provide a job description" ∧
    coverLetterSubmit
      { jobDescription := ""
        companyName := "Acme"
        position := "SRE"
        resumeFile := some "resume.docx"
        resumeFileName := "resume.docx"
        applicationResumePath := none
        jobId := none } =
      SubmitOutcome.rejected "Please provide a job description" := by
  exact ⟨c3_empty_job_description_rejected.1 _ rfl, c3_empty_job_description_rejected.2 _ rfl⟩

/-- C4: every non-empty paragraph of the original resume document appears
in the synthesized output, and when the provider call failed or returned an
empty result the output is exactly the original paragraphs followed by the
delimiter and the explicit no-suggestions note; the pipeline is total. -/
theorem c4_resume_synthesis_preserves_original :
    (∀ (doc : List String) (res : Option String) (p : String),
      p ∈ doc → p ≠ "" → p ∈ synthesizeResume (extract doc) res) ∧
    (∀ doc : List String,
      synthesizeResume (extract doc) none =
        extract doc ++ [suggestionsDelimiter, noSuggestionsNote]) ∧
    (∀ doc : List String,
      synthesizeResume (extract doc) (some "") =
        extract doc ++ [suggestionsDelimiter, noSuggestionsNote]) := by
  refine ⟨?_, ?_, ?_⟩
  · intro doc res p hp hne
    have hmem : p ∈ extract doc := by
      simp only [extract, List.mem_filter]
      exact ⟨hp, by simpa using hne⟩
    unfold synthesizeResume
    exact List.mem_append_left _ (List.mem_append_left _ hmem)
  · intro doc
    simp [synthesizeResume]
  · intro doc
    simp [synthesizeResume]

/-- C4 (witness): a three-paragraph document with one empty paragraph, on a
failed provider call: the first paragraph is preserved and the whole output
is the original non-empty paragraphs plus the note. -/
theorem c4_resume_synthesis_witness :
    "Experience at Acme" ∈
      synthesizeResume (extract ["Experience at Acme", "", "Skills: Go"]) none ∧
    synthesizeResume (extract ["Experience at Acme", "", "Skills: Go"]) none =
      ["Experience at Acme", "Skills: Go", suggestionsDelimiter, noSuggestionsNote] := by
  constructor
  · exact c4_resume_synthesis_preserves_original.1
      ["Experience at Acme", "", "Skills: Go"] none "Experience at Acme"
      (by simp) (by simp)
  · have h := c4_resume_synthesis_preserves_original.2.1 ["Experience at Acme", "", "Skills: Go"]
    simpa [extract] using h

/-- C5 (counterexample): the initial openai model of the settings page, and
the fallback applied when a settings response carries no stored models, is
gpt-3.5-turbo, which is in neither the settings dropdown list nor the
available model list of the configuration file. -/
theorem c5_default_model_counterexample :
    initialAISettingsState.openaiModel = "gpt-3.5-turbo" ∧
    (onSettingsLoaded initialAISettingsState
        (Js.jobj [("provider", Js.jstr "openai")])).openaiModel = "gpt-3.5-turbo" ∧
    openaiModels.contains "gpt-3.5-turbo" = false ∧
    yamlAvailableModelsOpenai.contains "gpt-3.5-turbo" = false := by
  exact ⟨rfl, rfl, by decide, by decide⟩

/-- C5 (amended): the per-provider model lists of the settings dropdowns
equal the available model lists of the configuration file, and the
configuration defaults lie in those lists; the ollama fallback of the
settings page is in its list, but the openai and anthropic fallbacks
(gpt-3.5-turbo and claude-3-haiku-20240307) lie outside their lists. -/
theorem c5_model_lists_agree :
    openaiModels = yamlAvailableModelsOpenai ∧
    anthropicModels = yamlAvailableModelsAnthropic ∧
    ollamaModels = yamlAvailableModelsOllama ∧
    ollamaModels.contains initialAISettingsState.ollamaModel = true ∧
    openaiModels.contains initialAISettingsState.openaiModel = false ∧
    anthropicModels.contains initialAISettingsState.anthropicModel = false ∧
    openaiModels.contains yamlModelOpenai = true ∧
    anthropicModels.contains yamlModelAnthropic = true ∧
    ollamaModels.contains yamlModelOllama = true := by
  refine ⟨rfl, rfl, rfl, ?_, ?_, ?_, ?_, ?_, ?_⟩ <;> decide

/-- C6: a field omitted from a settings update keeps its stored value, and
the save handler omits an API key whose form field is empty, so an empty
key field never overwrites the stored credential; the other stored fields
never need to be resupplied to survive an update. -/
theorem c6_update_preserves_omitted_fields
    (stored : StoredSettings) (s : AISettingsState) (u : SettingsUpdate) :
    (s.openaiApiKey = "" →
      (applySettingsUpdate stored (buildSettingsUpdate s)).openaiApiKey = stored.openaiApiKey) ∧
    (s.anthropicApiKey = "" →
      (applySettingsUpdate stored (buildSettingsUpdate s)).anthropicApiKey =
        stored.anthropicApiKey) ∧
    (u.provider = none → (applySettingsUpdate stored u).provider = stored.provider) ∧
    (u.openai_api_key = none →
      (applySettingsUpdate stored u).openaiApiKey = stored.openaiApiKey) ∧
    (u.anthropic_api_key = none →
      (applySettingsUpdate stored u).anthropicApiKey = stored.anthropicApiKey) ∧
    (u.openai_model = none → (applySettingsUpdate stored u).openaiModel = stored.openaiModel) ∧
    (u.anthropic_model = none →
      (applySettingsUpdate stored u).anthropicModel = stored.anthropicModel) ∧
    (u.ollama_model = none → (applySettingsUpdate stored u).ollamaModel = stored.ollamaModel) := by
  refine ⟨?_, ?_, ?_, ?_, ?_, ?_, ?_, ?_⟩ <;>
    intro h <;> simp [applySettingsUpdate, buildSettingsUpdate, h]

/-- C6 (witness): a concrete update built from a form with empty API key
fields leaves both stored credentials unchanged. -/
theorem c6_update_witness :
    (applySettingsUpdate
      { provider := "ollama"
        openaiApiKey := "sk-old-openai"
        anthropicApiKey := "sk-ant-old"
        openaiModel := "gpt-4o"
        anthropicModel := "claude-3-5-sonnet-latest"
        ollamaModel := "qwen2.5:14b" }
      (buildSettingsUpdate { initialAISettingsState with provider := "anthropic" })).openaiApiKey =
      "sk-old-openai" ∧
    (applySettingsUpdate
      { provider := "ollama"
        openaiApiKey := "sk-old-openai"
        anthropicApiKey := "sk-ant-old"
        openaiModel := "gpt-4o"
        anthropicModel := "claude-3-5-sonnet-latest"
        ollamaModel := "qwen2.5:14b" }
      (buildSettingsUpdate { initialAISettingsState with provider := "anthropic" })).anthropicApiKey =
      "sk-ant-old" := by
  have h := c6_update_preserves_omitted_fields
    { provider := "ollama"
      openaiApiKey := "sk-old-openai"
      anthropicApiKey := "sk-ant-old"
      openaiModel := "gpt-4o"
      anthropicModel := "claude-3-5-sonnet-latest"
      ollamaModel := "qwen2.5:14b" }
    { initialAISettingsState with provider := "anthropic" }
    (buildSettingsUpdate { initialAISettingsState with provider := "anthropic" })
  exact ⟨h.1 rfl, h.2.1 rfl⟩

/-- C7: the prompt builder depends on nothing but the task and the request
fields: two requests that agree on every field yield character-for-character
identical prompts for either task. -/
theorem c7_prompt_builder_deterministic (t : Task) (r1 r2 : GenerationRequest)
    (hjd : r1.jobDescription = r2.jobDescription)
    (hco : r1.companyName = r2.companyName)
    (hpo : r1.position = r2.position)
    (hst : r1.sourceText = r2.sourceText)
    (han : r1.applicantName = r2.applicantName)
    (hac : r1.applicantContact = r2.applicantContact) :
    build t r1 = build t r2 := by
  cases t <;> simp [build, hjd, hco, hpo, hst, han, hac]

/-- C7 (witness): two separately constructed requests with the same field
values produce the same prompt for both tasks. -/
theorem c7_prompt_builder_witness :
    build Task.resumeCustomization
      { jobDescription := "Backend engineer, Go, distributed systems"
        companyName := "Acme"
        position := "SRE"
        sourceText := "Experience at Initech"
        applicantName := "J. Doe"
        applicantContact := "j.doe at example.com" } =
    build Task.resumeCustomization
      { jobDescription := "Backend engineer, Go, distributed systems"
        companyName := "Acme"
        position := "SRE"
        sourceText := "Experience at Initech"
        applicantName := "J. Doe"
        applicantContact := "j.doe at example.com" } := by
  exact c7_prompt_builder_deterministic Task.resumeCustomization _ _ rfl rfl rfl rfl rfl rfl

/-- C8: the cover-letter form rejects an empty company name or an empty
position (no request is sent), while the resume-customization form accepts
a submission with both empty provided the job description is non-empty and
some resume source is present. -/
theorem c8_cover_letter_requires_more_fields :
    (∀ s : CoverLetterState, s.companyName = "" →
      ∃ msg, coverLetterSubmit s = SubmitOutcome.rejected msg) ∧
    (∀ s : CoverLetterState, s.position = "" →
      ∃ msg, coverLetterSubmit s = SubmitOutcome.rejected msg) ∧
    (∀ s : ResumeBuilderState, s.jobDescription ≠ "" → s.companyName = "" → s.position = "" →
      (s.resumeFile.isSome = true ∨ s.selectedResumePath ≠ "" ∨
        optStrTruthy s.applicationResumePath = true) →
      ∃ req, resumeBuilderSubmit s = SubmitOutcome.request req) := by
  refine ⟨?_, ?_, ?_⟩
  · intro s h
    by_cases hjd : s.jobDescription = ""
    · simp [coverLetterSubmit, coverLetterValidateForm, hjd]
    · simp [coverLetterSubmit, coverLetterValidateForm, hjd, h]
  · intro s h
    by_cases hjd : s.jobDescription = ""
    · simp [coverLetterSubmit, coverLetterValidateForm, hjd]
    · by_cases hco : s.companyName = ""
      · simp [coverLetterSubmit, coverLetterValidateForm, hjd, hco]
      · simp [coverLetterSubmit, coverLetterValidateForm, hjd, hco, h]
  · intro s hjd _ _ hsrc
    by_cases hf : s.resumeFile.isSome = true
    · simp [resumeBuilderSubmit, hjd, hf]
    · by_cases hsel : s.selectedResumePath = ""
      · by_cases happ : optStrTruthy s.applicationResumePath = true
        · simp [resumeBuilderSubmit, hjd, hf, hsel, happ]
        · exfalso
          rcases hsrc with h1 | h2 | h3
          · exact hf h1
          · exact h2 hsel
          · exact happ h3
      · simp [resumeBuilderSubmit, hjd, hf, hsel]

/-- C8 (witness): concrete cover-letter submissions with an empty company
name and with an empty position are rejected, and a concrete resume
submission with both empty but a job description and an uploaded file is
sent as a request. -/
theorem c8_cover_letter_stricter_witness :
    (∃ msg, coverLetterSubmit
      { jobDescription := "jd", companyName := "", position := "SRE",
        resumeFile := some "r.docx", resumeFileName := "r.docx",
        applicationResumePath := none, jobId := none } =
      SubmitOutcome.rejected msg) ∧
    (∃ msg, coverLetterSubmit
      { jobDescription := "jd", companyName := "Acme", position := "",
        resumeFile := some "r.docx", resumeFileName := "r.docx",
        applicationResumePath := none, jobId := none } =
      SubmitOutcome.rejected msg) ∧
    (∃ req, resumeBuilderSubmit
      { jobDescription := "jd", companyName := "", position := "",
        resumeFile := some "r.docx", resumeFileName := "r.docx",
        selectedResumePath := "", applicationResumePath := none, jobId := none } =
      SubmitOutcome.request req) := by
  refine ⟨?_, ?_, ?_⟩
  · exact c8_cover_letter_requires_more_fields.1 _ rfl
  · exact c8_cover_letter_requires_more_fields.2.1 _ rfl
  · exact c8_cover_letter_requires_more_fields.2.2 _ (by decide) rfl rfl (Or.inl rfl)

/-- C9 (counterexample): uploading a file and then having the application
query resolve with a stored resume path leaves both the uploaded file and
the dropdown selection active at once, refuting the claimed at-most-one
invariant over all reachable states. -/
theorem c9_two_sources_counterexample :
    ((resumeBuilderStep
        (resumeBuilderStep initialResumeBuilderState
          (ResumeBuilderEvent.fileSelected "my_resume.docx"))
        (ResumeBuilderEvent.applicationLoaded
          { job_description := some "jd", company_name := some "Acme",
            position := some "SRE", resume_path := some "uploads/old_resume.docx" })).resumeFile =
      some "my_resume.docx") ∧
    ((resumeBuilderStep
        (resumeBuilderStep initialResumeBuilderState
          (ResumeBuilderEvent.fileSelected "my_resume.docx"))
        (ResumeBuilderEvent.applicationLoaded
          { job_description := some "jd", company_name := some "Acme",
            position := some "SRE", resume_path := some "uploads/old_resume.docx" })).selectedResumePath =
      "uploads/old_resume.docx") := by
  exact ⟨rfl, rfl⟩

/-- C9 (amended): the two user handlers keep at most one source active
(uploading clears the selection, selecting clears the upload), though the
application-load handler can set the selection beside an uploaded file; and
every submission with a non-empty job description uses exactly one source
with precedence uploaded file, then dropdown selection, then application
resume path, while with no source available it is rejected and no request
is issued. -/
theorem c9_source_discipline (s : ResumeBuilderState) :
    (∀ f : String,
      ((resumeBuilderStep s (ResumeBuilderEvent.fileSelected f)).resumeFile.isSome &&
        ((resumeBuilderStep s (ResumeBuilderEvent.fileSelected f)).selectedResumePath != "")) =
        false) ∧
    (∀ v : String,
      ((resumeBuilderStep s (ResumeBuilderEvent.dropdownChanged v)).resumeFile.isSome &&
        ((resumeBuilderStep s (ResumeBuilderEvent.dropdownChanged v)).selectedResumePath != "")) =
        false) ∧
    (s.jobDescription ≠ "" →
      (∀ f, s.resumeFile = some f →
        resumeBuilderSubmit s = SubmitOutcome.request
          { job_description := s.jobDescription, company_name := s.companyName,
            position := s.position, job_id := s.jobId,
            resume_path := none, file := some f }) ∧
      (s.resumeFile = none → s.selectedResumePath ≠ "" →
        resumeBuilderSubmit s = SubmitOutcome.request
          { job_description := s.jobDescription, company_name := s.companyName,
            position := s.position, job_id := s.jobId,
            resume_path := some s.selectedResumePath, file := none }) ∧
      (s.resumeFile = none → s.selectedResumePath = "" →
        optStrTruthy s.applicationResumePath = true →
        resumeBuilderSubmit s = SubmitOutcome.request
          { job_description := s.jobDescription, company_name := s.companyName,
            position := s.position, job_id := s.jobId,
            resume_path := s.applicationResumePath, file := none }) ∧
      (s.resumeFile = none → s.selectedResumePath = "" →
        optStrTruthy s.applicationResumePath = false →
        resumeBuilderSubmit s =
          SubmitOutcome.rejected "Please upload or select a resume")) := by
  refine ⟨?_, ?_, ?_⟩
  · intro f
    simp [resumeBuilderStep]
  · intro v
    by_cases hv : v = ""
    · simp [resumeBuilderStep, hv]
    · simp [resumeBuilderStep, hv]
  · intro hjd
    refine ⟨?_, ?_, ?_, ?_⟩
    · intro f hf
      simp [resumeBuilderSubmit, hjd, hf]
    · intro hf hsel
      simp [resumeBuilderSubmit, hjd, hf, hsel]
    · intro hf hsel happ
      simp [resumeBuilderSubmit, hjd, hf, hsel, happ]
    · intro hf hsel happ
      simp [resumeBuilderSubmit, hjd, hf, hsel, happ]

/-- C9 (witness): the handler exclusiveness and each submission branch of
the amended theorem evaluated at concrete states. -/
theorem c9_source_discipline_witness :
    ((resumeBuilderStep initialResumeBuilderState
        (ResumeBuilderEvent.fileSelected "a.docx")).resumeFile.isSome &&
      ((resumeBuilderStep initialResumeBuilderState
        (ResumeBuilderEvent.fileSelected "a.docx")).selectedResumePath != "")) = false ∧
    resumeBuilderSubmit
      { jobDescription := "jd", companyName := "Acme", position := "SRE",
        resumeFile := some "a.docx", resumeFileName := "a.docx",
        selectedResumePath := "stored/b.docx", applicationResumePath := some "stored/c.docx",
        jobId := none } =
      SubmitOutcome.request
        { job_description := "jd", company_name := "Acme", position := "SRE",
          job_id := none, resume_path := none, file := some "a.docx" } ∧
    resumeBuilderSubmit
      { jobDescription := "jd", companyName := "Acme", position := "SRE",
        resumeFile := none, resumeFileName := "",
        selectedResumePath := "", applicationResumePath := none, jobId := none } =
      SubmitOutcome.rejected "Please upload or select a resume" := by
  refine ⟨?_, ?_, ?_⟩
  · exact (c9_source_discipline initialResumeBuilderState).1 "a.docx"
  · exact ((c9_source_discipline _).2.2 (by decide)).1 "a.docx" rfl
  · exact (((c9_source_discipline _).2.2 (by decide)).2.2.2 rfl rfl rfl)

/-- C10: the two revisions of getDocumentUrl agree on every filename whose
characters encodeURIComponent leaves unchanged, and disagree on a filename
containing a space. -/
theorem c10_document_url_revisions_agree (docType filename : String)
    (h : ∀ c ∈ filename.data, isUnreservedChar c = true) :
    getDocumentUrlCurrent docType filename = getDocumentUrlEarlier docType filename ∧
    getDocumentUrlCurrent "resumes" "my resume.docx" ≠
      getDocumentUrlEarlier "resumes" "my resume.docx" := by
  constructor
  · unfold getDocumentUrlCurrent getDocumentUrlEarlier encodeURIComponent
    rw [encodeURIComponentList_unreserved filename.data h]
  · decide

/-- C10 (witness): the two revisions produce the same URL for a filename of
unreserved characters. -/
theorem c10_document_url_witness :
    getDocumentUrlCurrent "resumes" "resume_v2.docx" =
      getDocumentUrlEarlier "resumes" "resume_v2.docx" := by
  exact (c10_document_url_revisions_agree "resumes" "resume_v2.docx" (by decide)).1

end JobAppTracker
